import Mathlib

/-!
Shallow embedding of the discord-embed-bot media pipeline, its configuration
store and its executable manager, with theorems checking the specification's
claims against the code.

Conventions of the embedding:
* Machine integers are `Nat` with explicit `% 2^w` where wrap-around matters
  (the config generation counter is a Rust `u16`).
* Rust `f64` arithmetic in the bitrate computation is modelled over `ℚ`;
  every operation of the source is mirrored as the corresponding exact
  rational operation.
* Filesystem and subprocess effects are modelled by explicit inputs
  (subprocess stdout/stderr/exit status, injected I/O outcomes) and by
  explicit state records.
* The external regex engine is a parameter: a `build` function that either
  compiles a pattern string or fails.
-/

namespace EmbedBot

/-! ## discord.rs -/

/-- `DISCORD_FILE_SIZE_LIMIT` from src/discord.rs line 14. -/
def DISCORD_FILE_SIZE_LIMIT : Nat := 10 * 1024 * 1024

/-- The delivery layer's oversize rejection, src/discord.rs lines 109-110:
`media_size > DISCORD_FILE_SIZE_LIMIT` yields `UploadMediaError::TooLarge`. -/
def uploadTooLarge (mediaSize : Nat) : Bool :=
  mediaSize > DISCORD_FILE_SIZE_LIMIT

/-! ## ffprobe.rs -/

/-- One entry of the ffprobe `streams` array (src/ffprobe.rs lines 79-83). -/
structure FFProbeStream where
  codec_name : String
  codec_type : String
deriving DecidableEq, Repr

/-- The parsed ffprobe JSON (src/ffprobe.rs lines 73-88).  The `format.duration`
string's `f64` parse result is modelled as an optional rational: `none` when
`parse::<f64>()` fails. -/
structure FFProbeOutput where
  streams : List FFProbeStream
  duration : Option ℚ
deriving DecidableEq, Repr

/-- `MediaProbe` (src/ffprobe.rs lines 8-12). -/
inductive MediaProbe where
  | corrupt : MediaProbe
  | probed (is_discord_compatible : Bool) (duration : ℚ) : MediaProbe
deriving DecidableEq, Repr

/-- Failure modes of `MediaProbe::get`: non-zero exit status, unparsable
ffprobe JSON, unparsable duration string. -/
inductive ProbeError where
  | exitStatus : ProbeError
  | jsonParse : ProbeError
  | durationParse : ProbeError
deriving DecidableEq, Repr

/-- `pat` occurs at the start of `text` (on character lists). -/
def charsStartWith : List Char → List Char → Bool
  | _, [] => true
  | [], _ :: _ => false
  | c :: cs, p :: ps => c == p && charsStartWith cs ps

/-- `pat` occurs somewhere inside `text` (on character lists). -/
def charsContain (text pat : List Char) : Bool :=
  charsStartWith text pat ||
    match text with
    | [] => false
    | _ :: cs => charsContain cs pat

/-- Substring containment used for the corruption-marker test
(`str::contains` in Rust). -/
def strContains (s marker : String) : Bool :=
  charsContain s.toList marker.toList

/-- The corruption marker string of src/ffprobe.rs line 38. -/
def corruptionMarker : String := "Packet corrupt"

/-- The compatibility test of src/ffprobe.rs lines 53-60: size strictly below
the platform limit, at least one video stream, and every stream is
h264-video or aac-audio. -/
def isDiscordCompatible (metadataLen : Nat) (streams : List FFProbeStream) : Bool :=
  decide (metadataLen < DISCORD_FILE_SIZE_LIMIT)
    && streams.any (fun stream => stream.codec_type == "video")
    && streams.all (fun stream =>
      (stream.codec_type == "video" && stream.codec_name == "h264")
      || (stream.codec_type == "audio" && stream.codec_name == "aac"))

/-- `MediaProbe::get` (src/ffprobe.rs lines 14-70) as a function of the
observable inputs: the probed file's byte size, the inspection subprocess's
stdout/stderr and exit status, and the JSON parse result of stdout
(`none` when `serde_json::from_str` fails). -/
def MediaProbe.get (metadataLen : Nat) (stdout stderr : String)
    (exitSuccess : Bool) (parsed : Option FFProbeOutput) :
    Except ProbeError MediaProbe :=
  if strContains stderr corruptionMarker || strContains stdout corruptionMarker then
    .ok .corrupt
  else if !exitSuccess then
    .error .exitStatus
  else
    match parsed with
    | none => .error .jsonParse
    | some output =>
      match output.duration with
      | none => .error .durationParse
      | some duration =>
        .ok (.probed (isDiscordCompatible metadataLen output.streams) duration)

example :
    MediaProbe.get 5 "x Packet corrupt y" "" false none = .ok .corrupt := rfl

example :
    MediaProbe.get 5 "" "" true (some ⟨[⟨"h264", "video"⟩], some 60⟩)
      = .ok (.probed true 60) := rfl

/-! ## yt_dlp.rs — transcode and post-extraction normalization -/

/-- A filesystem path of an acquisition output, split into directory, file
stem and extension, so that `Path::with_file_name` / `file_stem` of
src/yt_dlp.rs line 264 can be mirrored. -/
structure MediaPath where
  dir : String
  stem : String
  ext : String
deriving DecidableEq, Repr

/-- The re-encoded output path of src/yt_dlp.rs line 264:
`path.with_file_name(format!("{}_reencoded.mp4", path.file_stem()))`. -/
def reencodedPath (path : MediaPath) : MediaPath :=
  { dir := path.dir, stem := path.stem ++ "_reencoded", ext := "mp4" }

/-- `YtDlp::calculate_bitrates` (src/yt_dlp.rs lines 304-321), with the `f64`
arithmetic carried out exactly over `ℚ`.  Returns
`(video_bitrate_kbps, audio_bitrate_kbps)`. -/
def calculate_bitrates (target_size_mb duration_seconds : ℚ) : ℚ × ℚ :=
  let bits_per_byte : ℚ := 8
  let bytes_per_mb : ℚ := 1024 * 1024
  let target_size_bits := target_size_mb * bytes_per_mb * bits_per_byte
  let audio_bitrate_kbps : ℚ := 128
  let audio_bitrate_bps := audio_bitrate_kbps * 1000
  let total_bitrate_bps := target_size_bits / duration_seconds
  let video_bitrate_bps := total_bitrate_bps - audio_bitrate_bps
  let video_bitrate_kbps := video_bitrate_bps / 1000
  (video_bitrate_kbps, audio_bitrate_kbps)

/-- `ReencodeVideoError` (src/yt_dlp.rs lines 324-327); the I/O payload is
dropped. -/
inductive ReencodeVideoError where
  | io : ReencodeVideoError
  | bitrateTooLow : ReencodeVideoError
deriving DecidableEq, Repr

/-- `YtDlp::reencode_video` (src/yt_dlp.rs lines 263-302) as a function of
the input path, the optional known duration, and the transcode subprocess's
outcome (`ffmpegOk = true` iff ffmpeg exits successfully and the output file
exists).  With a known duration the bitrates are computed for a 10 MB target
and the transcode is aborted with `BitrateTooLow` when the video bitrate
falls below 800 kbps, before any subprocess is spawned. -/
def reencode_video (path : MediaPath) (reencode_duration : Option ℚ)
    (ffmpegOk : Bool) : Except ReencodeVideoError MediaPath :=
  let target := reencodedPath path
  let bitrates := reencode_duration.map (fun duration => calculate_bitrates 10 duration)
  match bitrates with
  | some (video_bitrate_kbps, _audio_bitrate_kbps) =>
    if video_bitrate_kbps < 800 then
      .error .bitrateTooLow
    else if ffmpegOk then .ok target else .error .io
  | none =>
    -- unknown duration: fixed constant-quality re-encode, no bitrate floor
    if ffmpegOk then .ok target else .error .io

/-- The post-extraction phase of `YtDlp::download`
(src/yt_dlp.rs lines 201-260) as a function of the extraction output path,
the probe step's result and the transcode subprocess outcome.  A probe error
is propagated by the `?` on line 203; a compatible probe skips
normalization; an incompatible or corrupt probe triggers `reencode_video`,
whose failure is only logged (the original path is kept). -/
def downloadNormalize (out_path : MediaPath)
    (probe : Except ProbeError MediaProbe) (ffmpegOk : Bool) :
    Except ProbeError MediaPath :=
  match probe with
  | .error e => .error e
  | .ok result =>
    let reencode_duration : Option (Option ℚ) :=
      match result with
      | .probed true _ => none
      | .probed false duration => some (some duration)
      | .corrupt => some none
    match reencode_duration with
    | none => .ok out_path
    | some duration =>
      match reencode_video out_path duration ffmpegOk with
      | .ok new_out_path => .ok new_out_path
      | .error _ => .ok out_path

/-! ## config.rs — data model -/

/-- `AdminGuild` (src/config.rs lines 39-44); the serenity id types are
`u64` newtypes, modelled as `Nat`. -/
structure AdminGuild where
  guild_id : Nat
  log_channel_id : Nat
  config_channel_id : Nat
deriving DecidableEq, Repr

/-- `LinkRegex` (src/config.rs lines 32-37). -/
structure LinkRegex where
  regex : String
  fixup : Option String
  no_video : Option String
deriving DecidableEq, Repr

/-- `Config` (src/config.rs lines 18-22). -/
structure Config where
  link_regexes : List LinkRegex
  admin_guild : Option AdminGuild
deriving DecidableEq, Repr

/-- `Config::default` (src/config.rs lines 23-30). -/
def Config.default : Config := { link_regexes := [], admin_guild := none }

/-- The serde data model: `serde_json::to_string_pretty` and
`serde_json::from_str` factor through JSON values; the string layer is the
external serde_json library, so edits are modelled at the value level. -/
inductive JsonVal where
  | null : JsonVal
  | jstr (s : String) : JsonVal
  | jnum (n : Nat) : JsonVal
  | jarr (xs : List JsonVal) : JsonVal
  | jobj (fields : List (String × JsonVal)) : JsonVal

/-- Field lookup in a JSON object. -/
def getField (fields : List (String × JsonVal)) (name : String) : Option JsonVal :=
  (fields.find? (fun f => f.1 == name)).map (fun f => f.2)

/-- Derived serde deserialization of an `Option<String>` field: a missing or
null field is `None`, a string is `Some`, anything else is an error. -/
def parseOptStrField (fields : List (String × JsonVal)) (name : String) :
    Option (Option String) :=
  match getField fields name with
  | none => some none
  | some .null => some none
  | some (.jstr s) => some (some s)
  | some _ => none

/-- Derived serde deserialization of a numeric id field. -/
def parseNatField (fields : List (String × JsonVal)) (name : String) : Option Nat :=
  match getField fields name with
  | some (.jnum n) => some n
  | _ => none

/-- Derived `Deserialize` for `AdminGuild`. -/
def parseAdminGuild : JsonVal → Option AdminGuild
  | .jobj fields => do
    let g ← parseNatField fields "guild_id"
    let l ← parseNatField fields "log_channel_id"
    let c ← parseNatField fields "config_channel_id"
    some { guild_id := g, log_channel_id := l, config_channel_id := c }
  | _ => none

/-- Derived `Deserialize` for `LinkRegex`. -/
def parseLinkRegex : JsonVal → Option LinkRegex
  | .jobj fields => do
    let r ← match getField fields "regex" with
            | some (.jstr s) => some s
            | _ => none
    let f ← parseOptStrField fields "fixup"
    let n ← parseOptStrField fields "no_video"
    some { regex := r, fixup := f, no_video := n }
  | _ => none

/-- Element-wise deserialization of the `link_regexes` array
(`collect::<Result<Vec<_>, _>>`). -/
def parseLinkRegexList : List JsonVal → Option (List LinkRegex)
  | [] => some []
  | v :: vs => do
    let r ← parseLinkRegex v
    let rs ← parseLinkRegexList vs
    some (r :: rs)

/-- Derived `Deserialize` for `Config` (`serde_json::from_str` at the value
level). -/
def parseConfigJson : JsonVal → Option Config
  | .jobj fields => do
    let lrs ← match getField fields "link_regexes" with
              | some (.jarr xs) => parseLinkRegexList xs
              | _ => none
    let ag ← match getField fields "admin_guild" with
             | none => some none
             | some .null => some none
             | some v => (parseAdminGuild v).map some
    some { link_regexes := lrs, admin_guild := ag }
  | _ => none

/-- Derived `Serialize` for `Option<String>`. -/
def optStrToJson : Option String → JsonVal
  | none => .null
  | some s => .jstr s

/-- Derived `Serialize` for `LinkRegex`. -/
def linkRegexToJson (r : LinkRegex) : JsonVal :=
  .jobj [("regex", .jstr r.regex), ("fixup", optStrToJson r.fixup),
         ("no_video", optStrToJson r.no_video)]

/-- Derived `Serialize` for `AdminGuild`. -/
def adminGuildToJson (g : AdminGuild) : JsonVal :=
  .jobj [("guild_id", .jnum g.guild_id), ("log_channel_id", .jnum g.log_channel_id),
         ("config_channel_id", .jnum g.config_channel_id)]

/-- Derived `Serialize` for `Config` (`serde_json::to_string_pretty` at the
value level). -/
def configToJson (c : Config) : JsonVal :=
  .jobj [("link_regexes", .jarr (c.link_regexes.map linkRegexToJson)),
         ("admin_guild", match c.admin_guild with
                         | none => .null
                         | some g => adminGuildToJson g)]

/-! ## config.rs — regex compilation -/

/-- The `$URLCHAR` expansion of src/config.rs lines 14-16 (the apostrophe of
the character class is spliced in by code point). -/
def urlcharClass : String :=
  "[A-Za-z0-9\\-._~:/?#\\[\\]@!$&" ++ String.singleton (Char.ofNat 39)
    ++ "()*+,;=%]"

/-- `regex_macros` (src/config.rs lines 14-16). -/
def regex_macros (regex : String) : String :=
  regex.replace "$URLCHAR" urlcharClass

/-- The external regex engine (`regex::RegexBuilder::new(pattern)
.case_insensitive(true).build()`): a compile function from pattern text to
an optional compiled matcher of type `R`. -/
structure RegexEngine (R : Type) where
  build : String → Option R

/-- `CompiledLinkRegex` (src/config.rs lines 78-82), over an abstract
compiled-matcher type `R`. -/
structure CompiledLinkRegex (R : Type) where
  regex : R
  fixup : Option String
  no_video : Option String
deriving DecidableEq, Repr

/-- `CompiledConfig` (src/config.rs lines 46-49). -/
structure CompiledConfig (R : Type) where
  link_regexes : List (CompiledLinkRegex R)
  admin_guild : Option AdminGuild
deriving DecidableEq, Repr

/-- Element-wise compilation of the rules, mirroring the iterator chain of
src/config.rs lines 60-71. -/
def compileLinkRegexList {R : Type} (E : RegexEngine R) :
    List LinkRegex → Option (List (CompiledLinkRegex R))
  | [] => some []
  | r :: rs => do
    let c ← E.build (regex_macros r.regex)
    let cs ← compileLinkRegexList E rs
    some ({ regex := c, fixup := r.fixup, no_video := r.no_video } :: cs)

/-- `CompiledConfig::try_from(&Config)` (src/config.rs lines 55-76). -/
def CompiledConfig.tryFrom {R : Type} (E : RegexEngine R) (config : Config) :
    Option (CompiledConfig R) := do
  let lrs ← compileLinkRegexList E config.link_regexes
  some { link_regexes := lrs, admin_guild := config.admin_guild }

/-! ## config.rs — the daemon state and its operations -/

/-- The observable state of a `ConfigDaemon` (src/config.rs lines 195-209):
the `AtomicU16` edit counter, the committed `SignedConfig` (signature and
compiled config, both behind the store mutex), and the backing file, whose
content is represented by the `Config` it pretty-prints (`none` when the
file has been truncated without a successful rewrite). -/
structure ConfigState (R : Type) where
  edit_count : Nat
  signature : Nat
  committed : CompiledConfig R
  fileContent : Option Config
deriving DecidableEq, Repr

/-- The state after `ConfigDaemon::new` on an empty or default config file
(src/config.rs lines 87-123). -/
def initConfigState (R : Type) : ConfigState R :=
  { edit_count := 0, signature := 0,
    committed := { link_regexes := [], admin_guild := none },
    fileContent := some Config.default }

/-- Outcome of the backing-file rewrite inside `edit`: either all three file
operations (`set_len(0)`, `seek`, `write_all`) succeed, or an I/O error
strikes after the truncation (e.g. `write_all` fails on a full disk). -/
inductive EditIoOutcome where
  | ok : EditIoOutcome
  | failAfterTruncate : EditIoOutcome
deriving DecidableEq, Repr

/-- `ConfigError` taxonomy for `edit`. -/
inductive ConfigError where
  | parse : ConfigError
  | pattern : ConfigError
  | ioFailure : ConfigError
deriving DecidableEq, Repr

/-- `ConfigDaemon::edit` (src/config.rs lines 136-155).  Parsing and
compilation happen before the critical section; inside it the code first
does `edit_count.fetch_add(1)` (which returns the old value), then rewrites
the file, then — only if the file rewrite succeeded — commits the new
`SignedConfig` with signature `old_count + 1` (`u16` arithmetic, wrapping in
release builds). -/
def ConfigDaemon.edit {R : Type} (E : RegexEngine R) (s : ConfigState R)
    (new : JsonVal) (io : EditIoOutcome) :
    ConfigState R × Except ConfigError Unit :=
  match parseConfigJson new with
  | none => (s, .error .parse)
  | some config =>
    match CompiledConfig.tryFrom E config with
    | none => (s, .error .pattern)
    | some compiled_config =>
      let edit_count := s.edit_count
      let atomicAfter := (edit_count + 1) % 65536
      match io with
      | .failAfterTruncate =>
        ({ s with edit_count := atomicAfter, fileContent := none },
         .error .ioFailure)
      | .ok =>
        ({ edit_count := atomicAfter,
           signature := (edit_count + 1) % 65536,
           committed := compiled_config,
           fileContent := some config },
         .ok ())

/-- The retry loop of `ConfigDaemon::get` (src/config.rs lines 180-191) when
no further edit interleaves: each iteration snapshots the committed
`(signature, config)` pair under the mutex and exits iff the atomic counter
equals the snapshotted signature.  `fuel` counts the iterations examined;
`none` means the loop is still spinning after `fuel` iterations — since the
state is static, `none` for every fuel means the loop never exits. -/
def getLoopFuel {R : Type} (s : ConfigState R) : Nat → Option (CompiledConfig R)
  | 0 => none
  | fuel + 1 =>
    if s.edit_count = s.signature then some s.committed else getLoopFuel s fuel

/-- `ConfigDaemon::get` (src/config.rs lines 157-192) for one reader with a
private `(edit_count, config)` cache, with no concurrent edit: the fast path
returns the cached config when the cached counter equals the atomic counter,
otherwise the retry loop runs. -/
def ConfigDaemon.get {R : Type} (s : ConfigState R) (cacheGen : Nat)
    (cacheCfg : CompiledConfig R) (fuel : Nat) : Option (CompiledConfig R) :=
  if cacheGen = s.edit_count then some cacheCfg else getLoopFuel s fuel

/-- The daemon state after `n` successful edits submitting payload `new`,
starting from the initial state. -/
def stateAfterEdits {R : Type} (E : RegexEngine R) (new : JsonVal) :
    Nat → ConfigState R
  | 0 => initConfigState R
  | n + 1 => (ConfigDaemon.edit E (stateAfterEdits E new n) new .ok).1

/-! ## yt_dlp.rs — executable manager -/

/-- `YtDlpRelease` (src/yt_dlp.rs lines 47-52). -/
structure YtDlpRelease where
  tag_name : String
  browser_download_url : String
  size : Nat
deriving DecidableEq, Repr

/-- `YtDlp` (src/yt_dlp.rs lines 89-92): the managed executable. -/
structure YtDlp where
  tag_name : String
  exe_path : String
deriving DecidableEq, Repr

/-- The filesystem-safe transform of a version tag
(src/yt_dlp.rs lines 108-111): ASCII-alphanumeric characters are kept,
everything else becomes a dash. -/
def fsTagName (tag : String) : String :=
  tag.map (fun c => if c.isAlphanum then c else '-')

/-- The artifact path for a version tag (src/yt_dlp.rs lines 113-127), for
the Linux build (`YT_DLP_EXE = "yt-dlp_linux"`, which has no extension). -/
def exePathFor (tag : String) : String :=
  "yt_dlp_exe/yt_dlp_" ++ fsTagName tag

/-- `YtDlp::download_release` (src/yt_dlp.rs lines 99-170) as a function of
the release, the byte size of an existing artifact for that tag (`none` when
no such file exists) and the download outcome.  Returns the new managed
executable together with the number of downloads performed. -/
def YtDlp.download_release (release : YtDlpRelease) (cachedLen : Option Nat)
    (downloadOk : Bool) : Except Unit (YtDlp × Nat) :=
  let exe_path := exePathFor release.tag_name
  if cachedLen = some release.size then
    .ok ({ tag_name := release.tag_name, exe_path := exe_path }, 0)
  else if downloadOk then
    .ok ({ tag_name := release.tag_name, exe_path := exe_path }, 1)
  else
    .error ()

/-- `YtDlpDaemon::update` (src/yt_dlp.rs lines 352-371) given the already
fetched latest release: under the write lock the feed tag is compared with
the managed executable's tag, and only on difference is
`download_release` run and the executable swapped. -/
def YtDlpDaemon.update (yt_dlp : YtDlp) (release : YtDlpRelease)
    (cachedLen : Option Nat) (downloadOk : Bool) : Except Unit (YtDlp × Nat) :=
  if release.tag_name = yt_dlp.tag_name then
    .ok (yt_dlp, 0)
  else
    YtDlp.download_release release cachedLen downloadOk

/-! ## tiktok.rs — slideshow extraction -/

/-- One usable slideshow image (src/tiktok.rs lines 6-10). -/
structure SlideshowImage where
  url : String
  width : Nat
  height : Nat
deriving DecidableEq, Repr

/-- Error taxonomy of `extract_slideshow_images`. -/
inductive SlideshowError where
  | extractImagesFailed : SlideshowError
  | noImagesFound : SlideshowError
  | ffmpegFailed : SlideshowError
  | outputNotCreated : SlideshowError
deriving DecidableEq, Repr

/-- One step of the canvas fold of src/tiktok.rs line 110:
`(w.max(image.width), h.max(image.height))`. -/
def canvasStep (wh : Nat × Nat) (image : SlideshowImage) : Nat × Nat :=
  (max wh.1 image.width, max wh.2 image.height)

/-- The canvas computation of `generate_slideshow_video`
(src/tiktok.rs line 110): fold of component-wise `max` from `(0, 0)`. -/
def slideshowCanvas (images : List SlideshowImage) : Nat × Nat :=
  images.foldl canvasStep (0, 0)

/-- `extract_slideshow_images` (src/tiktok.rs lines 12-80) as a function of
the item-detail response's `images` array (`none` when the JSON path to the
array is missing; each entry is `none` when its width, height or URL cannot
be read, mirroring the `filter_map`), the synthesis subprocess's exit and
the existence of the output file.  Returns the image list handed to
`generate_slideshow_video`. -/
def extract_slideshow_images
    (rawImages : Option (List (Option SlideshowImage)))
    (ffmpegOk outExists : Bool) : Except SlideshowError (List SlideshowImage) :=
  match rawImages with
  | none => .error .extractImagesFailed
  | some raw =>
    let images := raw.filterMap id
    if images.isEmpty then .error .noImagesFound
    else if !ffmpegOk then .error .ffmpegFailed
    else if !outExists then .error .outputNotCreated
    else .ok images

/-! ## Helper lemmas -/

theorem parseLinkRegex_roundtrip (r : LinkRegex) :
    parseLinkRegex (linkRegexToJson r) = some r := by
  obtain ⟨regex, fixup, no_video⟩ := r
  cases fixup <;> cases no_video <;> rfl

theorem parseAdminGuild_roundtrip (g : AdminGuild) :
    parseAdminGuild (adminGuildToJson g) = some g := rfl

theorem parseLinkRegexList_roundtrip (l : List LinkRegex) :
    parseLinkRegexList (l.map linkRegexToJson) = some l := by
  induction l with
  | nil => rfl
  | cons r rs ih =>
    simp [List.map, parseLinkRegexList, parseLinkRegex_roundtrip, ih]

/-- serde roundtrip for `Config` at the JSON value level. -/
theorem parseConfigJson_roundtrip (c : Config) :
    parseConfigJson (configToJson c) = some c := by
  obtain ⟨lrs, ag⟩ := c
  cases ag with
  | none =>
    simp [configToJson, parseConfigJson, getField, List.find?,
      parseLinkRegexList_roundtrip]
  | some g =>
    simp [configToJson, parseConfigJson, getField, List.find?,
      parseLinkRegexList_roundtrip, adminGuildToJson, parseAdminGuild,
      parseNatField]

/-- Characterization of a successful edit. -/
theorem edit_ok_eq {R : Type} (E : RegexEngine R) (s : ConfigState R)
    (new : JsonVal) (config : Config) (cc : CompiledConfig R)
    (hp : parseConfigJson new = some config)
    (hc : CompiledConfig.tryFrom E config = some cc) :
    ConfigDaemon.edit E s new .ok =
      ({ edit_count := (s.edit_count + 1) % 65536,
         signature := (s.edit_count + 1) % 65536,
         committed := cc,
         fileContent := some config }, .ok ()) := by
  simp [ConfigDaemon.edit, hp, hc]

/-- Characterization of an edit whose backing-file rewrite fails after the
truncation. -/
theorem edit_ioFail_eq {R : Type} (E : RegexEngine R) (s : ConfigState R)
    (new : JsonVal) (config : Config) (cc : CompiledConfig R)
    (hp : parseConfigJson new = some config)
    (hc : CompiledConfig.tryFrom E config = some cc) :
    ConfigDaemon.edit E s new .failAfterTruncate =
      ({ s with edit_count := (s.edit_count + 1) % 65536, fileContent := none },
       .error .ioFailure) := by
  simp [ConfigDaemon.edit, hp, hc]

/-- The atomic counter and committed signature after `n` successful edits are
both `n % 2^16`. -/
theorem stateAfterEdits_counters {R : Type} (E : RegexEngine R)
    (new : JsonVal) (config : Config) (cc : CompiledConfig R)
    (hp : parseConfigJson new = some config)
    (hc : CompiledConfig.tryFrom E config = some cc) :
    ∀ n, (stateAfterEdits E new n).edit_count = n % 65536 ∧
      (stateAfterEdits E new n).signature = n % 65536 := by
  intro n
  induction n with
  | zero => exact ⟨rfl, rfl⟩
  | succ n ih =>
    rw [stateAfterEdits, edit_ok_eq E _ new config cc hp hc]
    refine ⟨?_, ?_⟩ <;> simp [ih.1, Nat.add_mod_left]

/-- The canvas fold dominates its initial accumulator and every folded
image's dimensions. -/
theorem canvasFold_le :
    ∀ (l : List SlideshowImage) (a b : Nat),
      (a ≤ (l.foldl canvasStep (a, b)).1 ∧ b ≤ (l.foldl canvasStep (a, b)).2) ∧
      ∀ i ∈ l, i.width ≤ (l.foldl canvasStep (a, b)).1 ∧
        i.height ≤ (l.foldl canvasStep (a, b)).2 := by
  intro l
  induction l with
  | nil => intro a b; exact ⟨⟨le_refl a, le_refl b⟩, by simp⟩
  | cons i t ih =>
    intro a b
    have h := ih (max a i.width) (max b i.height)
    simp only [List.foldl_cons, canvasStep] at *
    refine ⟨⟨le_trans (le_max_left a i.width) h.1.1,
             le_trans (le_max_left b i.height) h.1.2⟩, ?_⟩
    intro j hj
    rcases List.mem_cons.mp hj with hj | hj
    · subst hj
      exact ⟨le_trans (le_max_right a j.width) h.1.1,
             le_trans (le_max_right b j.height) h.1.2⟩
    · exact h.2 j hj

/-- Each component of the canvas fold is the initial accumulator or a folded
image's dimension. -/
theorem canvasFold_attained :
    ∀ (l : List SlideshowImage) (a b : Nat),
      ((l.foldl canvasStep (a, b)).1 = a ∨
        ∃ i ∈ l, (l.foldl canvasStep (a, b)).1 = i.width) ∧
      ((l.foldl canvasStep (a, b)).2 = b ∨
        ∃ i ∈ l, (l.foldl canvasStep (a, b)).2 = i.height) := by
  intro l
  induction l with
  | nil => intro a b; exact ⟨Or.inl rfl, Or.inl rfl⟩
  | cons i t ih =>
    intro a b
    have h := ih (max a i.width) (max b i.height)
    simp only [List.foldl_cons, canvasStep] at *
    constructor
    · rcases h.1 with h1 | ⟨j, hj, hje⟩
      · rcases le_total a i.width with hle | hle
        · exact Or.inr ⟨i, List.mem_cons_self i t, by rw [h1, max_eq_right hle]⟩
        · exact Or.inl (by rw [h1, max_eq_left hle])
      · exact Or.inr ⟨j, List.mem_cons_of_mem i hj, hje⟩
    · rcases h.2 with h2 | ⟨j, hj, hje⟩
      · rcases le_total b i.height with hle | hle
        · exact Or.inr ⟨i, List.mem_cons_self i t, by rw [h2, max_eq_right hle]⟩
        · exact Or.inl (by rw [h2, max_eq_left hle])
      · exact Or.inr ⟨j, List.mem_cons_of_mem i hj, hje⟩

/-! ## Claims -/

set_option maxHeartbeats 1600000 in
/-- **C1** — The claim says every failing `edit` leaves the store (committed
config, generation counter, backing file) exactly unchanged.  The code bumps
the `AtomicU16` edit counter *before* the fallible file rewrite
(src/config.rs lines 142-146), so an I/O failure during the rewrite returns
an error with the committed config unchanged but the counter incremented and
the backing file truncated.  This theorem evaluates the model at that
failing input: a valid payload whose file rewrite fails after truncation. -/
theorem c1_edit_io_failure_mutates_store :
    (ConfigDaemon.edit (⟨fun _ => some ()⟩ : RegexEngine Unit)
        (initConfigState Unit) (configToJson Config.default)
        .failAfterTruncate).2 = .error .ioFailure
    ∧ (ConfigDaemon.edit (⟨fun _ => some ()⟩ : RegexEngine Unit)
        (initConfigState Unit) (configToJson Config.default)
        .failAfterTruncate).1.committed = (initConfigState Unit).committed
    ∧ (ConfigDaemon.edit (⟨fun _ => some ()⟩ : RegexEngine Unit)
        (initConfigState Unit) (configToJson Config.default)
        .failAfterTruncate).1.edit_count ≠ (initConfigState Unit).edit_count
    ∧ (ConfigDaemon.edit (⟨fun _ => some ()⟩ : RegexEngine Unit)
        (initConfigState Unit) (configToJson Config.default)
        .failAfterTruncate).1.fileContent ≠ (initConfigState Unit).fileContent :=
  ⟨rfl, rfl, by decide, by decide⟩

set_option maxHeartbeats 1600000 in
/-- **C2** (counterexample) — The claim says a failing probe never aborts the
acquisition and the original file is delivered.  In the code the probe
result is propagated with `?` (src/yt_dlp.rs line 203): at the concrete
input below (probe fails with a non-zero-exit error) the acquisition
returns an error instead of delivering the original file. -/
theorem c2_probe_error_is_propagated :
    downloadNormalize ⟨"yt_dlp_out", "u", "mp4"⟩ (.error .exitStatus) true
      = .error .exitStatus
    ∧ downloadNormalize ⟨"yt_dlp_out", "u", "mp4"⟩ (.error .exitStatus) true
      ≠ .ok ⟨"yt_dlp_out", "u", "mp4"⟩ :=
  ⟨rfl, fun h => Except.noConfusion h⟩

set_option maxHeartbeats 1600000 in
/-- **C2** (amended) — A failure of the probe step itself aborts the
acquisition with that error; only failures of the subsequent transcode step
are degraded gracefully: the original extracted file is delivered. -/
theorem c2_probe_error_aborts_transcode_error_degrades
    (p : MediaPath) (e : ProbeError) (ffmpegOk : Bool) (d : ℚ) :
    downloadNormalize p (.error e) ffmpegOk = .error e
    ∧ downloadNormalize p (.ok (.probed false d)) false = .ok p
    ∧ downloadNormalize p (.ok .corrupt) false = .ok p := by
  refine ⟨rfl, ?_, rfl⟩
  by_cases h : (calculate_bitrates 10 d).1 < 800 <;>
    simp [downloadNormalize, reencode_video, h]

/-- **C3** — `MediaProbe::get` classification order: the corruption marker in
either output stream yields `Corrupt` regardless of exit status; otherwise a
non-zero exit is a propagated error; otherwise the file is `Probed` with
`is_discord_compatible` true iff the size is strictly below the platform
limit, at least one stream is video, and every stream is h264-video or
aac-audio. -/
theorem c3_probe_classification (len : Nat) (out err : String)
    (exitSuccess : Bool) (parsed : Option FFProbeOutput) :
    ((strContains err corruptionMarker || strContains out corruptionMarker) = true →
      MediaProbe.get len out err exitSuccess parsed = .ok .corrupt)
    ∧ ((strContains err corruptionMarker || strContains out corruptionMarker) = false →
      exitSuccess = false →
      MediaProbe.get len out err exitSuccess parsed = .error .exitStatus)
    ∧ ((strContains err corruptionMarker || strContains out corruptionMarker) = false →
      exitSuccess = true →
      ∀ (streams : List FFProbeStream) (d : ℚ),
        parsed = some ⟨streams, some d⟩ →
        MediaProbe.get len out err exitSuccess parsed
          = .ok (.probed (isDiscordCompatible len streams) d)
        ∧ (isDiscordCompatible len streams = true ↔
            len < DISCORD_FILE_SIZE_LIMIT
            ∧ (∃ s ∈ streams, s.codec_type = "video")
            ∧ ∀ s ∈ streams,
                (s.codec_type = "video" ∧ s.codec_name = "h264")
                ∨ (s.codec_type = "audio" ∧ s.codec_name = "aac"))) := by
  refine ⟨fun hm => by simp [MediaProbe.get, hm], fun hm hx => ?_, fun hm hx streams d hp => ?_⟩
  · simp [MediaProbe.get, hm, hx]
  · subst hp hx
    refine ⟨by simp [MediaProbe.get, hm], ?_⟩
    simp [isDiscordCompatible, List.any_eq_true, List.all_eq_true,
      Bool.and_eq_true, Bool.or_eq_true, beq_iff_eq, decide_eq_true_iff,
      and_assoc]

/-- Witness for C3: the three branches at concrete inputs — a corrupt-marked
output with exit code 0, a clean failing exit, and a clean successful probe
of a compatible h264+aac file. -/
theorem c3_probe_classification_witness :
    MediaProbe.get 5 "x Packet corrupt y" "" true none = .ok .corrupt
    ∧ MediaProbe.get 5 "a" "b" false none = .error .exitStatus
    ∧ MediaProbe.get 5 "a" "b" true
        (some ⟨[⟨"h264", "video"⟩, ⟨"aac", "audio"⟩], some 3⟩)
      = .ok (.probed (isDiscordCompatible 5 [⟨"h264", "video"⟩, ⟨"aac", "audio"⟩]) 3) :=
  ⟨(c3_probe_classification 5 "x Packet corrupt y" "" true none).1 (by decide),
   (c3_probe_classification 5 "a" "b" false none).2.1 (by decide) rfl,
   ((c3_probe_classification 5 "a" "b" true
      (some ⟨[⟨"h264", "video"⟩, ⟨"aac", "audio"⟩], some 3⟩)).2.2 (by decide) rfl
      [⟨"h264", "video"⟩, ⟨"aac", "audio"⟩] 3 rfl).1⟩

set_option maxHeartbeats 1600000 in
/-- **C4** — The transcode bitrate budget: for every duration `d` the video
bitrate in bits per second is `(10*1024*1024*8)/d - 128000` (the audio
reserve is 128 kbps), in particular exactly that value at `d = 60`; and
whenever the computed video bitrate is below the 800 kbps floor the
transcode aborts with `BitrateTooLow` and the original file is delivered
unmodified. -/
theorem c4_bitrate_budget (d : ℚ) (p : MediaPath) (ffmpegOk : Bool) :
    (calculate_bitrates 10 d).1 * 1000 = (10 * 1024 * 1024 * 8) / d - 128000
    ∧ (calculate_bitrates 10 60).1 * 1000 = (10 * 1024 * 1024 * 8) / 60 - 128000
    ∧ ((calculate_bitrates 10 d).1 < 800 →
        reencode_video p (some d) ffmpegOk = .error .bitrateTooLow
        ∧ downloadNormalize p (.ok (.probed false d)) ffmpegOk = .ok p) := by
  refine ⟨?_, ?_, fun h => ?_⟩
  · simp [calculate_bitrates]; ring
  · simp [calculate_bitrates]; ring
  · exact ⟨by simp [reencode_video, h],
      by simp [downloadNormalize, reencode_video, h]⟩

set_option maxHeartbeats 1600000 in
/-- Witness for C4: duration 60 s (bitrate above the floor, exact budget
value) and duration 10^7 s (bitrate below the floor, transcode aborted and
the original path delivered). -/
theorem c4_bitrate_budget_witness :
    (calculate_bitrates 10 60).1 * 1000 = (10 * 1024 * 1024 * 8) / 60 - 128000
    ∧ (calculate_bitrates 10 10000000).1 < 800
    ∧ reencode_video ⟨"yt_dlp_out", "u", "mp4"⟩ (some 10000000) true
        = .error .bitrateTooLow
    ∧ downloadNormalize ⟨"yt_dlp_out", "u", "mp4"⟩
        (.ok (.probed false 10000000)) true = .ok ⟨"yt_dlp_out", "u", "mp4"⟩ := by
  have hlow : (calculate_bitrates 10 10000000).1 < 800 := by
    norm_num [calculate_bitrates]
  have h := (c4_bitrate_budget 10000000 ⟨"yt_dlp_out", "u", "mp4"⟩ true).2.2 hlow
  exact ⟨(c4_bitrate_budget 60 ⟨"yt_dlp_out", "u", "mp4"⟩ true).2.1, hlow, h.1, h.2⟩

/-- **C5** (counterexample) — The claim says the generation is monotonically
increasing across an unbounded sequence of successful edits.  The counter is
an `AtomicU16` (src/config.rs line 114) and the signature is computed with
`u16` arithmetic (src/config.rs line 149), so on the 65536th successful
edit the generation wraps to 0, below the previous generation 65535. -/
theorem c5_generation_wraps_at_2_16 :
    (stateAfterEdits (⟨fun _ => some ()⟩ : RegexEngine Unit)
        (configToJson Config.default) 65535).signature = 65535
    ∧ (stateAfterEdits (⟨fun _ => some ()⟩ : RegexEngine Unit)
        (configToJson Config.default) 65536).signature = 0 := by
  have h := stateAfterEdits_counters (⟨fun _ => some ()⟩ : RegexEngine Unit)
    (configToJson Config.default) Config.default
    { link_regexes := [], admin_guild := none }
    (parseConfigJson_roundtrip Config.default) rfl
  exact ⟨by rw [(h 65535).2], by rw [(h 65536).2]⟩

/-- **C5** (amended) — The generation stamped after the n-th successful edit
is `n mod 2^16`: it is strictly increasing as long as fewer than 2^16 edits
have occurred, and wraps afterwards (so monotonicity across an unbounded
edit sequence fails, and after a wrap a reader can observe a numerically
smaller generation). -/
theorem c5_generation_counts_edits_mod_2_16 {R : Type} (E : RegexEngine R)
    (new : JsonVal) (config : Config) (cc : CompiledConfig R)
    (hp : parseConfigJson new = some config)
    (hc : CompiledConfig.tryFrom E config = some cc) (n m : Nat) :
    (stateAfterEdits E new n).signature = n % 65536
    ∧ (n < m → m < 65536 →
        (stateAfterEdits E new n).signature < (stateAfterEdits E new m).signature) := by
  refine ⟨(stateAfterEdits_counters E new config cc hp hc n).2, fun hnm hm => ?_⟩
  rw [(stateAfterEdits_counters E new config cc hp hc n).2,
    (stateAfterEdits_counters E new config cc hp hc m).2,
    Nat.mod_eq_of_lt (lt_trans hnm hm), Nat.mod_eq_of_lt hm]
  exact hnm

/-- Witness for the amended C5 at one and two successful edits. -/
theorem c5_generation_counts_edits_mod_2_16_witness :
    (stateAfterEdits (⟨fun _ => some ()⟩ : RegexEngine Unit)
        (configToJson Config.default) 1).signature = 1 % 65536
    ∧ (stateAfterEdits (⟨fun _ => some ()⟩ : RegexEngine Unit)
        (configToJson Config.default) 1).signature
      < (stateAfterEdits (⟨fun _ => some ()⟩ : RegexEngine Unit)
        (configToJson Config.default) 2).signature :=
  ⟨(c5_generation_counts_edits_mod_2_16 (⟨fun _ => some ()⟩ : RegexEngine Unit)
      (configToJson Config.default) Config.default
      { link_regexes := [], admin_guild := none }
      (parseConfigJson_roundtrip Config.default) rfl 1 2).1,
   (c5_generation_counts_edits_mod_2_16 (⟨fun _ => some ()⟩ : RegexEngine Unit)
      (configToJson Config.default) Config.default
      { link_regexes := [], admin_guild := none }
      (parseConfigJson_roundtrip Config.default) rfl 1 2).2
      (by norm_num) (by norm_num)⟩

/-- **C6** — For every config `C` whose patterns all compile, submitting the
serialization of `C` through `edit` succeeds, commits exactly the compiled
form of `C` (same ordered rules, matchers compiled from the same expanded
patterns by the same engine, same templates and admin routing), and a
subsequent `read` returns that compiled config. -/
theorem c6_edit_serialize_then_read_roundtrip {R : Type} (E : RegexEngine R)
    (C : Config) (cc : CompiledConfig R) (s : ConfigState R)
    (hc : CompiledConfig.tryFrom E C = some cc) :
    (ConfigDaemon.edit E s (configToJson C) .ok).2 = .ok ()
    ∧ (ConfigDaemon.edit E s (configToJson C) .ok).1.committed = cc
    ∧ ∀ (cacheGen : Nat) (cacheCfg : CompiledConfig R) (fuel : Nat),
        cacheGen ≠ (ConfigDaemon.edit E s (configToJson C) .ok).1.edit_count →
        ConfigDaemon.get (ConfigDaemon.edit E s (configToJson C) .ok).1
          cacheGen cacheCfg (fuel + 1) = some cc := by
  have he := edit_ok_eq E s (configToJson C) C cc (parseConfigJson_roundtrip C) hc
  rw [he]
  refine ⟨rfl, rfl, fun cacheGen cacheCfg fuel hg => ?_⟩
  simp only [ConfigDaemon.get, getLoopFuel] at *
  simp [hg]

set_option maxHeartbeats 1600000 in
/-- Witness for C6: a one-rule config with admin routing, compiled by a
concrete engine, round-trips through `edit` + `get`. -/
theorem c6_edit_serialize_then_read_roundtrip_witness :
    (ConfigDaemon.edit (⟨fun _ => some (7 : Nat)⟩ : RegexEngine Nat)
        (initConfigState Nat)
        (configToJson ⟨[⟨"p", some "f", none⟩], some ⟨1, 2, 3⟩⟩) .ok).2 = .ok ()
    ∧ (ConfigDaemon.edit (⟨fun _ => some (7 : Nat)⟩ : RegexEngine Nat)
        (initConfigState Nat)
        (configToJson ⟨[⟨"p", some "f", none⟩], some ⟨1, 2, 3⟩⟩) .ok).1.committed
      = ⟨[⟨7, some "f", none⟩], some ⟨1, 2, 3⟩⟩
    ∧ ConfigDaemon.get (ConfigDaemon.edit (⟨fun _ => some (7 : Nat)⟩ : RegexEngine Nat)
        (initConfigState Nat)
        (configToJson ⟨[⟨"p", some "f", none⟩], some ⟨1, 2, 3⟩⟩) .ok).1
        0 ⟨[], none⟩ 1 = some ⟨[⟨7, some "f", none⟩], some ⟨1, 2, 3⟩⟩ :=
  have h := c6_edit_serialize_then_read_roundtrip
    (⟨fun _ => some (7 : Nat)⟩ : RegexEngine Nat)
    ⟨[⟨"p", some "f", none⟩], some ⟨1, 2, 3⟩⟩
    ⟨[⟨7, some "f", none⟩], some ⟨1, 2, 3⟩⟩ (initConfigState Nat) rfl
  ⟨h.1, h.2.1, h.2.2 0 ⟨[], none⟩ 0 (by decide)⟩

set_option maxHeartbeats 1600000 in
/-- **C7** — The claim says every `get` terminates, with re-loop iterations
bounded by the number of edits that occur.  After an edit whose file rewrite
failed (which bumped the counter without committing,
src/config.rs lines 142-151), the loop's exit test `edit_count == signature`
is false forever: with no further edits, `get` spins for every number of
iterations.  This theorem evaluates the loop at that failing input. -/
theorem c7_get_spins_forever_after_failed_edit (fuel : Nat) :
    getLoopFuel ((ConfigDaemon.edit (⟨fun _ => some ()⟩ : RegexEngine Unit)
        (initConfigState Unit) (configToJson Config.default)
        .failAfterTruncate).1) fuel = none := by
  have h1 : (ConfigDaemon.edit (⟨fun _ => some ()⟩ : RegexEngine Unit)
      (initConfigState Unit) (configToJson Config.default)
      .failAfterTruncate).1
      = (⟨1, 0, ⟨[], none⟩, none⟩ : ConfigState Unit) := by
    rw [edit_ioFail_eq (⟨fun _ => some ()⟩ : RegexEngine Unit)
      (initConfigState Unit) (configToJson Config.default) Config.default
      { link_regexes := [], admin_guild := none }
      (parseConfigJson_roundtrip Config.default) rfl]
    rfl
  rw [h1]
  induction fuel with
  | zero => rfl
  | succ n ih => simpa [getLoopFuel] using ih

/-- **C8** — When the feed's version tag equals the managed executable's tag,
`update` performs no download and leaves the executable unchanged; hence a
second refresh against an unchanged feed, after any successful refresh,
performs zero downloads. -/
theorem c8_update_noop_when_tag_current (y : YtDlp) (r : YtDlpRelease)
    (cachedLen : Option Nat) (downloadOk : Bool) :
    (r.tag_name = y.tag_name →
      YtDlpDaemon.update y r cachedLen downloadOk = .ok (y, 0))
    ∧ ∀ (y' : YtDlp) (k : Nat) (cl' : Option Nat) (dl' : Bool),
        YtDlpDaemon.update y r cachedLen downloadOk = .ok (y', k) →
        YtDlpDaemon.update y' r cl' dl' = .ok (y', 0) := by
  constructor
  · intro h; simp [YtDlpDaemon.update, h]
  · intro y' k cl' dl' h
    unfold YtDlpDaemon.update at h ⊢
    by_cases ht : r.tag_name = y.tag_name
    · simp [ht] at h
      obtain ⟨rfl, -⟩ := h
      simp [ht]
    · simp [ht] at h
      unfold YtDlp.download_release at h
      by_cases hc : cachedLen = some r.size
      · simp [hc] at h
        obtain ⟨rfl, -⟩ := h
        simp
      · by_cases hd : downloadOk
        · simp [hc, hd] at h
          obtain ⟨rfl, -⟩ := h
          simp
        · simp [hc, hd] at h

/-- Witness for C8: an already-current refresh downloads nothing; after a
refresh that downloaded a new release, a second refresh against the same
feed downloads nothing. -/
theorem c8_update_noop_when_tag_current_witness :
    YtDlpDaemon.update ⟨"v1", "p1"⟩ ⟨"v1", "u", 5⟩ none true
      = .ok (⟨"v1", "p1"⟩, 0)
    ∧ YtDlpDaemon.update ⟨"v1", exePathFor "v1"⟩ ⟨"v1", "u", 5⟩ none false
      = .ok (⟨"v1", exePathFor "v1"⟩, 0) :=
  ⟨(c8_update_noop_when_tag_current ⟨"v1", "p1"⟩ ⟨"v1", "u", 5⟩ none true).1 rfl,
   (c8_update_noop_when_tag_current ⟨"v0", "p0"⟩ ⟨"v1", "u", 5⟩ none true).2
     ⟨"v1", exePathFor "v1"⟩ 1 none false rfl⟩

/-- **C9** — Slideshow extraction fails with `NoImagesFound` when the
item-detail response's images array yields zero usable images, and the
synthesized video's canvas is the component-wise maximum of the image
dimensions: it dominates every image and each component is attained by some
image. -/
theorem c9_slideshow_no_images_and_canvas
    (raw : List (Option SlideshowImage)) (ffmpegOk outExists : Bool)
    (images : List SlideshowImage) :
    (raw.filterMap id = [] →
      extract_slideshow_images (some raw) ffmpegOk outExists
        = .error .noImagesFound)
    ∧ (∀ i ∈ images, i.width ≤ (slideshowCanvas images).1
        ∧ i.height ≤ (slideshowCanvas images).2)
    ∧ (images ≠ [] →
        (∃ i ∈ images, i.width = (slideshowCanvas images).1)
        ∧ (∃ i ∈ images, i.height = (slideshowCanvas images).2)) := by
  refine ⟨fun h => by simp [extract_slideshow_images, h], ?_, fun hne => ?_⟩
  · intro i hi
    exact (canvasFold_le images 0 0).2 i hi
  · constructor
    · rcases (canvasFold_attained images 0 0).1 with h0 | ⟨j, hj, hje⟩
      · obtain ⟨i0, t, rfl⟩ := List.exists_cons_of_ne_nil hne
        refine ⟨i0, List.mem_cons_self i0 t, ?_⟩
        have hle := ((canvasFold_le (i0 :: t) 0 0).2 i0 (List.mem_cons_self i0 t)).1
        simp only [slideshowCanvas] at *
        omega
      · exact ⟨j, hj, hje.symm⟩
    · rcases (canvasFold_attained images 0 0).2 with h0 | ⟨j, hj, hje⟩
      · obtain ⟨i0, t, rfl⟩ := List.exists_cons_of_ne_nil hne
        refine ⟨i0, List.mem_cons_self i0 t, ?_⟩
        have hle := ((canvasFold_le (i0 :: t) 0 0).2 i0 (List.mem_cons_self i0 t)).2
        simp only [slideshowCanvas] at *
        omega
      · exact ⟨j, hj, hje.symm⟩

/-- Witness for C9: one unusable entry yields `NoImagesFound`; for two images
of mixed dimensions the canvas bounds and attains both components. -/
theorem c9_slideshow_no_images_and_canvas_witness :
    extract_slideshow_images (some [none]) true true = .error .noImagesFound
    ∧ (SlideshowImage.mk "u" 4 9).width
        ≤ (slideshowCanvas [⟨"u", 4, 9⟩, ⟨"v", 8, 3⟩]).1
    ∧ (∃ i ∈ [SlideshowImage.mk "u" 4 9, ⟨"v", 8, 3⟩],
        i.width = (slideshowCanvas [⟨"u", 4, 9⟩, ⟨"v", 8, 3⟩]).1)
    ∧ (∃ i ∈ [SlideshowImage.mk "u" 4 9, ⟨"v", 8, 3⟩],
        i.height = (slideshowCanvas [⟨"u", 4, 9⟩, ⟨"v", 8, 3⟩]).2) :=
  have h := c9_slideshow_no_images_and_canvas [none] true true
    [⟨"u", 4, 9⟩, ⟨"v", 8, 3⟩]
  ⟨h.1 rfl, (h.2.1 ⟨"u", 4, 9⟩ (by simp)).1,
   (h.2.2 (by simp)).1, (h.2.2 (by simp)).2⟩

set_option maxHeartbeats 1600000 in
/-- **C10** — A file whose size is exactly the 10 MiB limit probes
delivery-incompatible (the probe compares with strict `<`), while the
delivery layer's oversize rejection (strict `>`) does not fire at that size;
an incompatible probe then sends the file through the transcode path,
yielding the re-encoded path, which differs from the original. -/
theorem c10_exact_limit_size_transcoded_but_uploadable
    (out err : String) (streams : List FFProbeStream) (d : ℚ) (p : MediaPath)
    (hm : (strContains err corruptionMarker || strContains out corruptionMarker)
      = false) :
    MediaProbe.get DISCORD_FILE_SIZE_LIMIT out err true (some ⟨streams, some d⟩)
      = .ok (.probed (isDiscordCompatible DISCORD_FILE_SIZE_LIMIT streams) d)
    ∧ isDiscordCompatible DISCORD_FILE_SIZE_LIMIT streams = false
    ∧ uploadTooLarge DISCORD_FILE_SIZE_LIMIT = false
    ∧ downloadNormalize p (.ok (.probed false 60)) true = .ok (reencodedPath p)
    ∧ reencodedPath p ≠ p := by
  refine ⟨by simp [MediaProbe.get, hm], ?_, by decide, ?_, fun h => ?_⟩
  · simp [isDiscordCompatible]
  · have h800 : ¬ (calculate_bitrates 10 60).1 < 800 := by
      norm_num [calculate_bitrates]
    simp [downloadNormalize, reencode_video, h800]
  · have hs := congrArg MediaPath.stem h
    simp only [reencodedPath] at hs
    have hlen := congrArg String.length hs
    simp [String.length_append] at hlen
    exact absurd hlen (by decide)

set_option maxHeartbeats 1600000 in
/-- Witness for C10 at a clean probe of an h264 video file of exactly the
limit size. -/
theorem c10_exact_limit_size_transcoded_but_uploadable_witness :
    MediaProbe.get DISCORD_FILE_SIZE_LIMIT "a" "b" true
        (some ⟨[⟨"h264", "video"⟩], some 60⟩)
      = .ok (.probed (isDiscordCompatible DISCORD_FILE_SIZE_LIMIT
          [⟨"h264", "video"⟩]) 60)
    ∧ isDiscordCompatible DISCORD_FILE_SIZE_LIMIT [⟨"h264", "video"⟩] = false
    ∧ uploadTooLarge DISCORD_FILE_SIZE_LIMIT = false
    ∧ downloadNormalize ⟨"yt_dlp_out", "w", "mp4"⟩ (.ok (.probed false 60)) true
      = .ok (reencodedPath ⟨"yt_dlp_out", "w", "mp4"⟩) :=
  have h := c10_exact_limit_size_transcoded_but_uploadable "a" "b"
    [⟨"h264", "video"⟩] 60 ⟨"yt_dlp_out", "w", "mp4"⟩ (by decide)
  ⟨h.1, h.2.1, h.2.2.1, h.2.2.2.1⟩

end EmbedBot
